import Mathlib

/-!
Verification development for the charter-network 10-year forecasting and
cost-allocation engine (streamlit_app.py).  The engine is embedded shallowly
over ℚ (the idealisation of the source's floating-point arithmetic): per-year
columns of the entity projection, the per-year allocation layer (shared
specialist staff, Obligated-Group rent smoothing), the per-row net-income and
margin computation, and the consolidated home-office P&L.  Divisions the
source performs without a guard get a companion `Option ℚ` definition in which
`none` models the non-finite float (NaN or ±Inf) that numpy/pandas produce on
a zero denominator.
-/

namespace CharterModel

/-- The global scenario parameters read from the sidebar controls
(sliders, checkboxes and number inputs of sections 2 of the source); rates
are stored already divided by 100 as the source does. -/
structure Assumptions where
  cola_rate : ℚ
  salary_growth : ℚ
  benefit_rate : ℚ
  mgmt_fee_pct : ℚ
  og_smoothing_active : Bool
  launch_cwb : Bool
  cwb_join_og : Bool
  cwb_target_enrollment : ℚ
  num_psychs : ℕ
  num_coaches : ℕ
  ho_salary_base : ℚ
deriving Repr, DecidableEq

/-- `inflation = 0.02`, the fixed general-inflation constant of the source. -/
def inflation : ℚ := 2 / 100

/-- `avg_specialist_salary = 95000`, fixed constant of the source. -/
def avg_specialist_salary : ℚ := 95000

/-- The declared valid range of every adjustable parameter, mirrored from the
ranges of the sidebar controls. -/
def Admissible (A : Assumptions) : Prop :=
  0 ≤ A.cola_rate ∧ A.cola_rate ≤ 5 / 100 ∧
  0 ≤ A.salary_growth ∧ A.salary_growth ≤ 5 / 100 ∧
  20 / 100 ≤ A.benefit_rate ∧ A.benefit_rate ≤ 40 / 100 ∧
  10 / 100 ≤ A.mgmt_fee_pct ∧ A.mgmt_fee_pct ≤ 20 / 100 ∧
  100 ≤ A.cwb_target_enrollment ∧ A.cwb_target_enrollment ≤ 2000 ∧
  A.num_psychs ≤ 10 ∧ A.num_coaches ≤ 10 ∧
  500000 ≤ A.ho_salary_base ∧ A.ho_salary_base ≤ 5000000

instance (A : Assumptions) : Decidable (Admissible A) := by
  unfold Admissible; infer_instance

/-- An entity of the network: the fields set by `School.__init__`. -/
structure School where
  name : String
  enrollment : ℚ
  is_og : Bool
  is_growth : Bool
  base_ppr : ℚ
  base_teacher_cost : ℚ
  base_fixed : ℚ
  base_rent : ℚ
deriving Repr, DecidableEq

/-- Translation of the constructor `School.__init__(name, start_enrollment,
is_og, is_growth=False)`: the cost bases are literal constants and the base
rent depends only on pool membership. -/
def School.init (name : String) (start_enrollment : ℚ) (is_og : Bool)
    (is_growth : Bool := false) : School :=
  { name := name
    enrollment := start_enrollment
    is_og := is_og
    is_growth := is_growth
    base_ppr := 14000
    base_teacher_cost := 4500
    base_fixed := 250000
    base_rent := if is_og then 550000 else 350000 }

/-- `grow(value, rate, years)`: the compounding helper, a list whose entry `i`
is `value * (1 + rate) ^ i`. -/
def grow (value rate : ℚ) (years : ℕ) : List ℚ :=
  (List.range years).map (fun i => value * (1 + rate) ^ i)

/-- The `Enrollment` column of `generate_projection` at a given `year`
(1-based).  A growth school follows `np.linspace(100, cwb_target_enrollment,
5)` over years 1..5 (entry `i` of the linspace is `100 + i * (target - 100) /
4`) and then holds flat at the target for the remaining years; any other
school is flat at its start enrollment. -/
def enrollmentAt (A : Assumptions) (s : School) (year : ℕ) : ℚ :=
  if s.is_growth then
    if year ≤ 5 then
      100 + ((year - 1 : ℕ) : ℚ) * (A.cwb_target_enrollment - 100) / 4
    else A.cwb_target_enrollment
  else s.enrollment

/-- The per-pupil-revenue factor used for `year`: entry `year - 1` of
`grow(self.base_ppr, cola_rate, years)`. -/
def pprAt (A : Assumptions) (s : School) (year : ℕ) : ℚ :=
  (grow s.base_ppr A.cola_rate 10).getD (year - 1) 0

/-- `Gross Revenue = Enrollment * ppr_curve`. -/
def grossRevenue (A : Assumptions) (s : School) (year : ℕ) : ℚ :=
  enrollmentAt A s year * pprAt A s year

/-- `Mgmt Fee = Gross Revenue * mgmt_fee_pct`. -/
def mgmtFee (A : Assumptions) (s : School) (year : ℕ) : ℚ :=
  grossRevenue A s year * A.mgmt_fee_pct

/-- `Direct Instruction = Enrollment * teacher_cost_curve * (1 + benefit_rate)`
where the teacher-cost curve is `grow(self.base_teacher_cost, salary_growth,
years)`. -/
def directInstruction (A : Assumptions) (s : School) (year : ℕ) : ℚ :=
  enrollmentAt A s year * (grow s.base_teacher_cost A.salary_growth 10).getD (year - 1) 0
    * (1 + A.benefit_rate)

/-- `School Fixed Ops = grow(self.base_fixed, inflation, years)`. -/
def fixedOps (s : School) (year : ℕ) : ℚ :=
  (grow s.base_fixed inflation 10).getD (year - 1) 0

/-- `Base Rent Obligation = self.base_rent`, flat across all years. -/
def baseRentObligation (s : School) : ℚ := s.base_rent

/-- The literal roster `legacy_configs` of the source. -/
def legacy_configs : List (String × ℚ × Bool) :=
  [("School A (OG)", 500, true), ("School B (OG)", 480, true),
   ("School C (OG)", 520, true), ("School D (OG)", 450, true),
   ("School E (OG)", 600, true), ("School F (Ext)", 350, false),
   ("School G (Ext)", 380, false)]

/-- The seven always-present legacy schools. -/
def legacySchools : List School :=
  legacy_configs.map (fun c => School.init c.1 c.2.1 c.2.2)

/-- The full roster of a run: the legacy schools, plus the optional growth
school `School("Growth CWB (New)", 100, is_og=cwb_join_og, is_growth=True)`
when `launch_cwb` is set. -/
def schools (A : Assumptions) : List School :=
  legacySchools ++
    (if A.launch_cwb then [School.init "Growth CWB (New)" 100 A.cwb_join_og true] else [])

/-- `specialist_salary_inflated = avg_specialist_salary * (1 + salary_growth) ^ (year - 1)`. -/
def specialist_salary_inflated (A : Assumptions) (year : ℕ) : ℚ :=
  avg_specialist_salary * (1 + A.salary_growth) ^ (year - 1)

/-- `total_specialist_cost = (num_psychs + num_coaches) * specialist_salary_inflated * (1 + benefit_rate)`. -/
def total_specialist_cost (A : Assumptions) (year : ℕ) : ℚ :=
  ((A.num_psychs + A.num_coaches : ℕ) : ℚ) * specialist_salary_inflated A year
    * (1 + A.benefit_rate)

/-- `total_enrollment = year_slice["Enrollment"].sum()` over the roster `L`. -/
def total_enrollment (A : Assumptions) (L : List School) (year : ℕ) : ℚ :=
  (L.map (fun s => enrollmentAt A s year)).sum

/-- `Allocated Staff Costs = (Enrollment / total_enrollment) * total_specialist_cost`
(the division is unguarded in the source; here it is ℚ division). -/
def allocatedStaffCost (A : Assumptions) (L : List School) (s : School) (year : ℕ) : ℚ :=
  (enrollmentAt A s year / total_enrollment A L year) * total_specialist_cost A year

/-- The `og_mask` subset of a roster: the schools with `Is_OG` true. -/
def ogSchools (L : List School) : List School := L.filter (fun s => s.is_og)

/-- `total_og_debt = year_slice.loc[og_mask, "Base Rent Obligation"].sum()`. -/
def total_og_debt (L : List School) : ℚ :=
  ((ogSchools L).map (fun s => s.base_rent)).sum

/-- `total_og_enrollment = year_slice.loc[og_mask, "Enrollment"].sum()`. -/
def total_og_enrollment (A : Assumptions) (L : List School) (year : ℕ) : ℚ :=
  ((ogSchools L).map (fun s => enrollmentAt A s year)).sum

/-- `smoothed_rate = total_og_debt / total_og_enrollment` (unguarded in the
source; here ℚ division). -/
def smoothed_rate (A : Assumptions) (L : List School) (year : ℕ) : ℚ :=
  total_og_debt L / total_og_enrollment A L year

/-- `Final Rent`: the smoothing branch `if og_smoothing_active and
year_slice[og_mask].shape[0] > 0` assigns `Enrollment * smoothed_rate` to OG
rows, the else branch assigns their own base rent; non-OG rows always get
their own base rent. -/
def finalRent (A : Assumptions) (L : List School) (s : School) (year : ℕ) : ℚ :=
  if s.is_og then
    if A.og_smoothing_active ∧ 0 < (ogSchools L).length then
      enrollmentAt A s year * smoothed_rate A L year
    else s.base_rent
  else s.base_rent

/-- `Rent Note`: "Smoothed" for OG rows under active smoothing with a
non-empty pool, "Fixed" for OG rows otherwise, "Lease" for non-OG rows.  (The
pool membership of a roster is the same in every year, so the note does not
depend on the year.) -/
def rentNote (A : Assumptions) (L : List School) (s : School) : String :=
  if s.is_og then
    if A.og_smoothing_active ∧ 0 < (ogSchools L).length then "Smoothed" else "Fixed"
  else "Lease"

/-- `Total Expenses = Mgmt Fee + Direct Instruction + School Fixed Ops +
Allocated Staff Costs + Final Rent`. -/
def totalExpenses (A : Assumptions) (L : List School) (s : School) (year : ℕ) : ℚ :=
  mgmtFee A s year + directInstruction A s year + fixedOps s year
    + allocatedStaffCost A L s year + finalRent A L s year

/-- `Net Income = Gross Revenue - Total Expenses`. -/
def netIncome (A : Assumptions) (L : List School) (s : School) (year : ℕ) : ℚ :=
  grossRevenue A s year - totalExpenses A L s year

/-- `Margin = Net Income / Gross Revenue` (unguarded in the source). -/
def margin (A : Assumptions) (L : List School) (s : School) (year : ℕ) : ℚ :=
  netIncome A L s year / grossRevenue A s year

/-- `total_fees = ys["Mgmt Fee"].sum()` of the home-office P&L loop. -/
def total_fees (A : Assumptions) (L : List School) (year : ℕ) : ℚ :=
  (L.map (fun s => mgmtFee A s year)).sum

/-- `core_cost = ho_salary_base * (1 + salary_growth) ** (year - 1) * (1 + benefit_rate)`. -/
def core_cost (A : Assumptions) (year : ℕ) : ℚ :=
  A.ho_salary_base * (1 + A.salary_growth) ^ (year - 1) * (1 + A.benefit_rate)

/-- `net_ho = total_fees - core_cost`. -/
def net_ho (A : Assumptions) (L : List School) (year : ℕ) : ℚ :=
  total_fees A L year - core_cost A year

/-- `HO Margin = net_ho / total_fees` (unguarded in the source). -/
def ho_margin (A : Assumptions) (L : List School) (year : ℕ) : ℚ :=
  net_ho A L year / total_fees A L year

/-- Float-faithful companion of `allocatedStaffCost`: `none` models the
non-finite value (NaN or ±Inf) that the pandas division of line 114 produces
when `total_enrollment` is 0; the source has no guard and no exception at
this division. -/
def allocatedStaffCostOpt (A : Assumptions) (L : List School) (s : School) (year : ℕ) :
    Option ℚ :=
  if total_enrollment A L year = 0 then none else some (allocatedStaffCost A L s year)

/-- Float-faithful companion of `smoothed_rate`: `none` models the non-finite
value produced when `total_og_enrollment` is 0. -/
def smoothed_rateOpt (A : Assumptions) (L : List School) (year : ℕ) : Option ℚ :=
  if total_og_enrollment A L year = 0 then none else some (smoothed_rate A L year)

/-- Float-faithful companion of `margin`: `none` models the NaN produced when
`Gross Revenue` is 0.  The source stores the raw ratio in the `Margin`
column with no marker and no exception. -/
def marginOpt (A : Assumptions) (L : List School) (s : School) (year : ℕ) : Option ℚ :=
  if grossRevenue A s year = 0 then none else some (margin A L s year)

/-- Float-faithful companion of `ho_margin`: `none` models the non-finite
value produced when `total_fees` is 0. -/
def ho_marginOpt (A : Assumptions) (L : List School) (year : ℕ) : Option ℚ :=
  if total_fees A L year = 0 then none else some (ho_margin A L year)

/-- The default sidebar values: COLA 2.5%, salary step 3%, benefit load 25%,
management fee 15%, smoothing active, no growth launch, growth target 500,
2 psychologists, 1 coach, home-office salary base 1,200,000. -/
def defaultAssumptions : Assumptions :=
  { cola_rate := 25 / 1000
    salary_growth := 3 / 100
    benefit_rate := 25 / 100
    mgmt_fee_pct := 15 / 100
    og_smoothing_active := true
    launch_cwb := false
    cwb_join_og := false
    cwb_target_enrollment := 500
    num_psychs := 2
    num_coaches := 1
    ho_salary_base := 1200000 }

/-- The default scenario with the rent-smoothing checkbox turned off. -/
def noSmoothingAssumptions : Assumptions :=
  { defaultAssumptions with og_smoothing_active := false }

end CharterModel

namespace CharterModel

/-! ### Helper lemmas -/

theorem grow_getD (v r : ℚ) (n i : ℕ) (h : i < n) :
    (grow v r n).getD i 0 = v * (1 + r) ^ i := by
  simp [grow, List.getD_eq_getElem?_getD, List.getElem?_map, List.getElem?_range h]

theorem pprAt_one (A : Assumptions) (s : School) : pprAt A s 1 = s.base_ppr := by
  rw [pprAt, grow_getD _ _ _ _ (by norm_num)]
  norm_num

theorem enrollmentAt_nongrowth (A : Assumptions) (s : School) (year : ℕ)
    (h : s.is_growth = false) : enrollmentAt A s year = s.enrollment := by
  simp [enrollmentAt, h]

theorem growth_enrollment_ge (A : Assumptions) (s : School) (year : ℕ)
    (hg : s.is_growth = true) (hT : 100 ≤ A.cwb_target_enrollment) :
    100 ≤ enrollmentAt A s year := by
  simp only [enrollmentAt, hg, if_true]
  split
  · have h0 : (0:ℚ) ≤ ((year - 1 : ℕ) : ℚ) := Nat.cast_nonneg _
    nlinarith
  · exact hT

theorem legacy_sum_enrollment (A : Assumptions) (year : ℕ) :
    (legacySchools.map (fun s => enrollmentAt A s year)).sum = 3280 := by
  norm_num [legacySchools, legacy_configs, enrollmentAt, School.init]

theorem total_enrollment_ge (A : Assumptions) (year : ℕ)
    (hT : 100 ≤ A.cwb_target_enrollment) :
    3280 ≤ total_enrollment A (schools A) year := by
  unfold total_enrollment schools
  rw [List.map_append, List.sum_append, legacy_sum_enrollment]
  split
  · have hg := growth_enrollment_ge A (School.init "Growth CWB (New)" 100 A.cwb_join_og true)
      year rfl hT
    simp only [List.map_cons, List.map_nil, List.sum_cons, List.sum_nil]
    linarith
  · simp

theorem og_sum_enrollment_legacy (A : Assumptions) (year : ℕ) :
    ((ogSchools legacySchools).map (fun s => enrollmentAt A s year)).sum = 2550 := by
  norm_num [ogSchools, legacySchools, legacy_configs, enrollmentAt, School.init]

theorem total_og_enrollment_ge (A : Assumptions) (year : ℕ)
    (hT : 100 ≤ A.cwb_target_enrollment) :
    2550 ≤ total_og_enrollment A (schools A) year := by
  unfold total_og_enrollment schools ogSchools
  rw [List.filter_append, List.map_append, List.sum_append]
  rw [show (legacySchools.filter (fun s => s.is_og)) = ogSchools legacySchools from rfl]
  rw [og_sum_enrollment_legacy]
  split
  · rcases hb : (School.init "Growth CWB (New)" 100 A.cwb_join_og true).is_og with _ | _
    · simp [hb]
    · have hg := growth_enrollment_ge A (School.init "Growth CWB (New)" 100 A.cwb_join_og true)
        year rfl hT
      simp only [List.filter_cons, hb, List.filter_nil, List.map_cons, List.map_nil,
        List.sum_cons, List.sum_nil, if_true]
      linarith
  · simp

theorem gross_revenue_pos (A : Assumptions) (s : School) (year : ℕ)
    (hc : 0 ≤ A.cola_rate) (hT : 100 ≤ A.cwb_target_enrollment)
    (h10 : year ≤ 10) (hmem : s ∈ schools A) :
    0 < grossRevenue A s year := by
  have hi : year - 1 < 10 := by omega
  have hppr : 0 < (1 + A.cola_rate) ^ (year - 1) := pow_pos (by linarith) _
  unfold schools at hmem
  rcases List.mem_append.mp hmem with h | h
  · simp only [legacySchools, legacy_configs, List.map_cons, List.map_nil,
      List.mem_cons, List.not_mem_nil, or_false] at h
    rcases h with h | h | h | h | h | h | h <;>
      (subst h
       rw [grossRevenue, pprAt, grow_getD _ _ _ _ hi]
       rw [enrollmentAt_nongrowth _ _ _ rfl]
       simp only [School.init]
       positivity)
  · have hl : A.launch_cwb = true := by
      by_contra hfalse
      simp [Bool.not_eq_true] at hfalse
      simp [hfalse] at h
    rw [hl] at h
    simp only [if_true, List.mem_cons, List.not_mem_nil, or_false] at h
    subst h
    rw [grossRevenue, pprAt, grow_getD _ _ _ _ hi]
    have hg := growth_enrollment_ge A (School.init "Growth CWB (New)" 100 A.cwb_join_og true)
      year rfl hT
    have hpos : (0:ℚ) < enrollmentAt A (School.init "Growth CWB (New)" 100 A.cwb_join_og true) year := by
      linarith
    simp only [School.init]
    positivity

end CharterModel

namespace CharterModel

/-! ### Claim theorems -/

/-- Claim C1: for every year in which total enrollment across all entities is
strictly positive, the sum over all entities of the allocated shared staff
cost equals that year's total shared-specialist cost (headcount times
per-head salary compounded at the salary growth rate from year 1, times 1
plus the benefit load rate).  The equality is exact in ℚ, hence within any
relative tolerance. -/
theorem allocated_staff_cost_conservation (A : Assumptions) (L : List School) (year : ℕ)
    (hpos : 0 < total_enrollment A L year) :
    (L.map (fun s => allocatedStaffCost A L s year)).sum = total_specialist_cost A year := by
  have hne : total_enrollment A L year ≠ 0 := ne_of_gt hpos
  simp only [allocatedStaffCost, div_mul_eq_mul_div, mul_div_assoc]
  rw [List.sum_map_mul_right, ← total_enrollment, mul_div_assoc']
  rw [mul_comm, mul_div_assoc, div_self hne, mul_one]

/-- Witness for C1: the default scenario in year 1 has positive total
enrollment and the allocated shared staff costs sum to the total specialist
cost. -/
theorem allocated_staff_cost_conservation_witness :
    0 < total_enrollment defaultAssumptions (schools defaultAssumptions) 1 ∧
    ((schools defaultAssumptions).map
        (fun s => allocatedStaffCost defaultAssumptions (schools defaultAssumptions) s 1)).sum
      = total_specialist_cost defaultAssumptions 1 := by
  have hpos : 0 < total_enrollment defaultAssumptions (schools defaultAssumptions) 1 := by
    norm_num [total_enrollment, schools, legacySchools, legacy_configs, enrollmentAt,
      School.init, defaultAssumptions]
  exact ⟨hpos, allocated_staff_cost_conservation defaultAssumptions (schools defaultAssumptions) 1 hpos⟩

/-- Claim C2: for every year, if rent smoothing is active and the pooled
(Obligated Group) set is non-empty with strictly positive total pooled
enrollment, the sum of the final rent over the pooled entities equals the sum
of their base rent obligations — smoothing redistributes but never creates or
destroys pooled debt service.  The equality is exact in ℚ. -/
theorem pooled_rent_conservation (A : Assumptions) (L : List School) (year : ℕ)
    (hs : A.og_smoothing_active = true) (hne : 0 < (ogSchools L).length)
    (hpos : 0 < total_og_enrollment A L year) :
    ((ogSchools L).map (fun s => finalRent A L s year)).sum
      = ((ogSchools L).map (fun s => baseRentObligation s)).sum := by
  have hq : total_og_enrollment A L year ≠ 0 := ne_of_gt hpos
  have hmap : (ogSchools L).map (fun s => finalRent A L s year)
      = (ogSchools L).map (fun s => enrollmentAt A s year * smoothed_rate A L year) := by
    refine List.map_congr_left (fun s hs' => ?_)
    have hog : s.is_og = true := by
      have h2 := (List.mem_filter.mp hs').2
      simpa using h2
    simp [finalRent, hog, hs, hne]
  rw [hmap, List.sum_map_mul_right, ← total_og_enrollment, smoothed_rate,
    mul_div_assoc', mul_comm, mul_div_assoc, div_self hq, mul_one]
  simp [total_og_debt, baseRentObligation]

/-- Witness for C2: the default scenario in year 1 — smoothing on, a pool of
five schools, pooled enrollment 2550 — conserves the pooled rent total. -/
theorem pooled_rent_conservation_witness :
    defaultAssumptions.og_smoothing_active = true ∧
    0 < (ogSchools (schools defaultAssumptions)).length ∧
    0 < total_og_enrollment defaultAssumptions (schools defaultAssumptions) 1 ∧
    ((ogSchools (schools defaultAssumptions)).map
        (fun s => finalRent defaultAssumptions (schools defaultAssumptions) s 1)).sum
      = ((ogSchools (schools defaultAssumptions)).map (fun s => baseRentObligation s)).sum := by
  have h1 : defaultAssumptions.og_smoothing_active = true := rfl
  have h2 : 0 < (ogSchools (schools defaultAssumptions)).length := by
    norm_num [ogSchools, schools, legacySchools, legacy_configs, School.init, defaultAssumptions]
  have h3 : 0 < total_og_enrollment defaultAssumptions (schools defaultAssumptions) 1 := by
    norm_num [total_og_enrollment, ogSchools, schools, legacySchools, legacy_configs,
      enrollmentAt, School.init, defaultAssumptions]
  exact ⟨h1, h2, h3,
    pooled_rent_conservation defaultAssumptions (schools defaultAssumptions) 1 h1 h2 h3⟩

/-- Claim C5: a ramp (growth) entity's enrollment is 100 in year 1, linearly
interpolated between 100 and the configured target over years 1..5 (value
`100 + (year - 1) * (target - 100) / 4`), exactly the target in year 5, and
exactly the target in each of years 6..10. -/
theorem ramp_enrollment_boundary (A : Assumptions) (s : School) (hg : s.is_growth = true) :
    enrollmentAt A s 1 = 100
    ∧ (∀ year, 1 ≤ year → year ≤ 5 →
        enrollmentAt A s year = 100 + ((year : ℚ) - 1) * (A.cwb_target_enrollment - 100) / 4)
    ∧ enrollmentAt A s 5 = A.cwb_target_enrollment
    ∧ (∀ year, 6 ≤ year → year ≤ 10 → enrollmentAt A s year = A.cwb_target_enrollment) := by
  refine ⟨?_, ?_, ?_, ?_⟩
  · simp [enrollmentAt, hg]
  · intro year h1 h5
    simp only [enrollmentAt, hg, if_true, if_pos h5]
    rw [Nat.cast_sub h1]
    norm_num
  · simp only [enrollmentAt, hg, if_true]
    norm_num
  · intro year h6 _
    simp only [enrollmentAt, hg, if_true]
    rw [if_neg (by omega)]

/-- Witness for C5: the growth school with the default target 500 has
enrollment 100 in year 1, 300 in year 3, 500 in year 5 and 500 in year 7. -/
theorem ramp_enrollment_boundary_witness :
    enrollmentAt defaultAssumptions (School.init "Growth CWB (New)" 100 false true) 1 = 100
    ∧ enrollmentAt defaultAssumptions (School.init "Growth CWB (New)" 100 false true) 3 = 300
    ∧ enrollmentAt defaultAssumptions (School.init "Growth CWB (New)" 100 false true) 5 = 500
    ∧ enrollmentAt defaultAssumptions (School.init "Growth CWB (New)" 100 false true) 7 = 500 := by
  have H := ramp_enrollment_boundary defaultAssumptions
    (School.init "Growth CWB (New)" 100 false true) rfl
  refine ⟨H.1, ?_, ?_, ?_⟩
  · rw [H.2.1 3 (by norm_num) (by norm_num)]
    norm_num [defaultAssumptions]
  · rw [H.2.2.1]; rfl
  · rw [H.2.2.2 7 (by norm_num) (by norm_num)]; rfl


/-- Claim C10: the constructor fixes every entity's year-1 cost bases as
literal constants — per-pupil revenue 14000, teacher cost per pupil 4500,
fixed cost 250000 — and the base rent obligation is 550000 or 350000
depending only on pool membership; in particular the growth entity's rent
obligation depends only on whether it joins the Obligated Group. -/
theorem school_init_constants (name : String) (enr : ℚ) (og growth : Bool) :
    (School.init name enr og growth).base_ppr = 14000
    ∧ (School.init name enr og growth).base_teacher_cost = 4500
    ∧ (School.init name enr og growth).base_fixed = 250000
    ∧ (School.init name enr og growth).base_rent = (if og then 550000 else 350000)
    ∧ ∀ A : Assumptions, (School.init "Growth CWB (New)" 100 A.cwb_join_og true).base_rent
        = (if A.cwb_join_og then 550000 else 350000) :=
  ⟨rfl, rfl, rfl, rfl, fun _ => rfl⟩

end CharterModel

namespace CharterModel

/-- Claim C4: in the default scenario (seven legacy entities, no growth
entity, smoothing active) the pooled per-pupil rate equals 2750000/2550 in
every year, the pooled school with enrollment 500 receives a final rent
within 1e-6 relative tolerance of 539215.69, and the five pooled final rents
sum exactly to 2750000. -/
theorem default_scenario_smoothing (year : ℕ) :
    smoothed_rate defaultAssumptions (schools defaultAssumptions) year = 2750000 / 2550
    ∧ |finalRent defaultAssumptions (schools defaultAssumptions)
          (School.init "School A (OG)" 500 true) year - 53921569 / 100|
        ≤ (1 / 1000000) * (53921569 / 100)
    ∧ ((ogSchools (schools defaultAssumptions)).map
          (fun s => finalRent defaultAssumptions (schools defaultAssumptions) s year)).sum
        = 2750000 := by
  have hrate : smoothed_rate defaultAssumptions (schools defaultAssumptions) year
      = 2750000 / 2550 := by
    norm_num [smoothed_rate, total_og_debt, total_og_enrollment, ogSchools, schools,
      legacySchools, legacy_configs, enrollmentAt, School.init, defaultAssumptions]
  have hcond : defaultAssumptions.og_smoothing_active = true
      ∧ 0 < (ogSchools (schools defaultAssumptions)).length := by
    refine ⟨rfl, ?_⟩
    norm_num [ogSchools, schools, legacySchools, legacy_configs, School.init, defaultAssumptions]
  have hfr_og : ∀ s : School, s.is_og = true →
      finalRent defaultAssumptions (schools defaultAssumptions) s year
        = enrollmentAt defaultAssumptions s year * (2750000 / 2550) := by
    intro s hs
    simp only [finalRent, hs, if_true]
    rw [if_pos hcond, hrate]
  refine ⟨hrate, ?_, ?_⟩
  · rw [hfr_og (School.init "School A (OG)" 500 true) rfl]
    rw [abs_le]
    constructor <;> norm_num [enrollmentAt, School.init]
  · have hmap : ((ogSchools (schools defaultAssumptions)).map
          (fun s => finalRent defaultAssumptions (schools defaultAssumptions) s year))
        = ((ogSchools (schools defaultAssumptions)).map
          (fun s => enrollmentAt defaultAssumptions s year * (2750000 / 2550))) := by
      refine List.map_congr_left (fun s hs' => ?_)
      have hog : s.is_og = true := by
        have h2 := (List.mem_filter.mp hs').2
        simpa using h2
      exact hfr_og s hog
    have hsch : schools defaultAssumptions = legacySchools := by
      simp [schools, defaultAssumptions]
    rw [hmap, List.sum_map_mul_right, hsch, og_sum_enrollment_legacy]
    norm_num

/-- Claim C6: whenever smoothing is inactive or the pooled set is empty, a
pooled entity's final rent is its own base rent obligation with note
"Fixed"; and a non-pooled entity always gets its own base rent obligation
with note "Lease", regardless of the smoothing setting. -/
theorem rent_passthrough_branches (A : Assumptions) (L : List School) (s : School) (year : ℕ) :
    ((A.og_smoothing_active = false ∨ ogSchools L = []) → s.is_og = true →
      finalRent A L s year = baseRentObligation s ∧ rentNote A L s = "Fixed")
    ∧ (s.is_og = false →
      finalRent A L s year = baseRentObligation s ∧ rentNote A L s = "Lease") := by
  constructor
  · intro h hog
    have hcond : ¬(A.og_smoothing_active = true ∧ 0 < (ogSchools L).length) := by
      rcases h with h | h
      · simp [h]
      · simp [h]
    constructor
    · simp only [finalRent, hog, if_true]
      rw [if_neg (by simpa using hcond)]
      rfl
    · simp only [rentNote, hog, if_true]
      rw [if_neg (by simpa using hcond)]
  · intro hog
    constructor
    · simp [finalRent, hog, baseRentObligation]
    · simp [rentNote, hog]

/-- Witness for C6: with smoothing switched off, the pooled school A pays its
own base rent 550000 with note "Fixed", and the non-pooled school F pays its
own base rent 350000 with note "Lease". -/
theorem rent_passthrough_branches_witness :
    finalRent noSmoothingAssumptions (schools noSmoothingAssumptions)
        (School.init "School A (OG)" 500 true) 1
      = baseRentObligation (School.init "School A (OG)" 500 true)
    ∧ rentNote noSmoothingAssumptions (schools noSmoothingAssumptions)
        (School.init "School A (OG)" 500 true) = "Fixed"
    ∧ finalRent noSmoothingAssumptions (schools noSmoothingAssumptions)
        (School.init "School F (Ext)" 350 false) 1
      = baseRentObligation (School.init "School F (Ext)" 350 false)
    ∧ rentNote noSmoothingAssumptions (schools noSmoothingAssumptions)
        (School.init "School F (Ext)" 350 false) = "Lease" := by
  have hA := (rent_passthrough_branches noSmoothingAssumptions (schools noSmoothingAssumptions)
    (School.init "School A (OG)" 500 true) 1).1 (Or.inl rfl) rfl
  have hF := (rent_passthrough_branches noSmoothingAssumptions (schools noSmoothingAssumptions)
    (School.init "School F (Ext)" 350 false) 1).2 rfl
  exact ⟨hA.1, hA.2, hF.1, hF.2⟩

/-- Claim C3 (evaluation at the failing input): the source raises no
`DegenerateAllocationError` anywhere — the divisions of the allocation layer
are unguarded.  On a roster whose total enrollment is 0 (the spec's
zero-enrollment-guard scenario) the shared-staff allocation evaluates to the
non-finite float value (modelled `none`), and likewise the smoothed rate on a
pool with zero enrollment; the run is not aborted — the remaining rent
fields of the same row are still produced. -/
theorem degenerate_division_unguarded :
    allocatedStaffCostOpt defaultAssumptions [School.init "Z" 0 false]
        (School.init "Z" 0 false) 1 = none
    ∧ smoothed_rateOpt defaultAssumptions [School.init "OGZ" 0 true] 1 = none
    ∧ finalRent defaultAssumptions [School.init "Z" 0 false] (School.init "Z" 0 false) 1 = 350000
    ∧ rentNote defaultAssumptions [School.init "Z" 0 false] (School.init "Z" 0 false) = "Lease" := by
  refine ⟨?_, ?_, ?_, ?_⟩
  · norm_num [allocatedStaffCostOpt, total_enrollment, enrollmentAt, School.init]
  · norm_num [smoothed_rateOpt, total_og_enrollment, ogSchools, enrollmentAt, School.init]
  · norm_num [finalRent, School.init]
  · norm_num [rentNote, School.init]

/-- Claim C7 (evaluation at the failing input): the source computes `Margin =
Net Income / Gross Revenue` and `HO Margin = net_ho / total_fees` with no
guard and no marker.  For a row with gross revenue 0 the margin is the
non-finite float NaN (modelled `none`), and for a year with zero total fee
revenue so is the home-office margin; no explicit "undefined" marker
exists in the source. -/
theorem margin_nan_unguarded :
    marginOpt defaultAssumptions
        [School.init "School A (OG)" 500 true, School.init "Z" 0 false]
        (School.init "Z" 0 false) 1 = none
    ∧ ho_marginOpt defaultAssumptions [School.init "Z" 0 false] 1 = none := by
  constructor
  · norm_num [marginOpt, grossRevenue, enrollmentAt, School.init]
  · norm_num [ho_marginOpt, total_fees, mgmtFee, grossRevenue, enrollmentAt, School.init]

end CharterModel

namespace CharterModel

/-- Claim C8: for every year, the consolidated home-office row has total fee
revenue equal to the sum of the management fees across all entities,
core office expense `ho_salary_base * (1 + salary_growth) ^ (year - 1) *
(1 + benefit_rate)`, net office income equal to fees minus core expense, and
— whenever the fee revenue is non-zero — office margin equal to net income
divided by fee revenue. -/
theorem home_office_pnl (A : Assumptions) (year : ℕ) :
    total_fees A (schools A) year = ((schools A).map (fun s => mgmtFee A s year)).sum
    ∧ core_cost A year
        = A.ho_salary_base * (1 + A.salary_growth) ^ (year - 1) * (1 + A.benefit_rate)
    ∧ net_ho A (schools A) year = total_fees A (schools A) year - core_cost A year
    ∧ (total_fees A (schools A) year ≠ 0 →
        ho_marginOpt A (schools A) year
          = some (net_ho A (schools A) year / total_fees A (schools A) year)) := by
  refine ⟨rfl, rfl, rfl, fun h => ?_⟩
  simp [ho_marginOpt, ho_margin, h]

/-- Witness for C8: in the default scenario, year-1 fee revenue is 6888000,
non-zero, and the home-office margin is the explicit quotient. -/
theorem home_office_pnl_witness :
    total_fees defaultAssumptions (schools defaultAssumptions) 1 ≠ 0
    ∧ ho_marginOpt defaultAssumptions (schools defaultAssumptions) 1
        = some (net_ho defaultAssumptions (schools defaultAssumptions) 1
            / total_fees defaultAssumptions (schools defaultAssumptions) 1) := by
  have hval : total_fees defaultAssumptions (schools defaultAssumptions) 1 = 6888000 := by
    norm_num [total_fees, mgmtFee, grossRevenue, pprAt_one, schools, legacySchools,
      legacy_configs, enrollmentAt, School.init, defaultAssumptions]
  have hf : total_fees defaultAssumptions (schools defaultAssumptions) 1 ≠ 0 := by
    rw [hval]; norm_num
  exact ⟨hf, (home_office_pnl defaultAssumptions 1).2.2.2 hf⟩

/-- Claim C9 (implicit): with the seven legacy entities always present, every
admissible parameter setting gives, in every year of the horizon, a total
enrollment of at least 3280, a pooled enrollment of at least 2550, and a
strictly positive gross revenue for every entity — so the denominators of
the specialist allocation, the smoothed rent rate and the per-entity margin
are all non-zero. -/
theorem denominators_positive (A : Assumptions) (year : ℕ) (hA : Admissible A)
    (_h1 : 1 ≤ year) (h10 : year ≤ 10) :
    3280 ≤ total_enrollment A (schools A) year
    ∧ 2550 ≤ total_og_enrollment A (schools A) year
    ∧ ∀ s ∈ schools A, 0 < grossRevenue A s year := by
  obtain ⟨hc, _, _, _, _, _, _, _, hT, _⟩ := hA
  exact ⟨total_enrollment_ge A year hT, total_og_enrollment_ge A year hT,
    fun s hs => gross_revenue_pos A s year hc hT h10 hs⟩

/-- Witness for C9: the default parameters are admissible and in year 1 the
bounds hold. -/
theorem denominators_positive_witness :
    Admissible defaultAssumptions
    ∧ 3280 ≤ total_enrollment defaultAssumptions (schools defaultAssumptions) 1
    ∧ 2550 ≤ total_og_enrollment defaultAssumptions (schools defaultAssumptions) 1
    ∧ ∀ s ∈ schools defaultAssumptions, 0 < grossRevenue defaultAssumptions s 1 := by
  have hA : Admissible defaultAssumptions := by
    norm_num [Admissible, defaultAssumptions]
  have h := denominators_positive defaultAssumptions 1 hA (by norm_num) (by norm_num)
  exact ⟨hA, h.1, h.2.1, h.2.2⟩

end CharterModel
